import Mathlib

/-!
Verification of the ml-detector threat-detection core
(applications/ml-detector: threat_detector.py, models/, rules/, constants.py).

The Python code is shallowly embedded: records are typed structures of
optional fields, numpy float arithmetic becomes exact rational arithmetic
over ℚ, deques with maxlen become lists with tail truncation, and the
external libraries (sklearn scaler/DBSCAN, tensorflow VAE) are opaque
function parameters.  Exceptions are modelled with Except where the code
has try/except boundaries that matter to the claims.
-/

namespace MlDetector

/-- Python numpy mean of a list of floats, as exact rationals.
`np.mean` of an empty slice is NaN in numpy; in this embedding division by
zero yields 0, and every theorem that depends on the mean of a possibly
empty list is stated with a nonemptiness hypothesis where it matters. -/
def listMean (xs : List ℚ) : ℚ := xs.sum / xs.length

/-- Python builtin `max` over a nonempty list (0 on the empty list, which
the code never reaches because it guards with `if all_threats:`). -/
def listMaxD (xs : List ℚ) : ℚ :=
  match xs with
  | [] => 0
  | h :: t => t.foldl max h

/-- Python slice `xs[-n:]`: the last `n` elements. -/
def listTakeLast (n : Nat) (xs : List α) : List α :=
  xs.drop (xs.length - n)

/-- `collections.deque(maxlen := m)` after extending `xs` with `ys`:
only the last `m` elements are retained (FIFO eviction). -/
def dequeExtend (maxlen : Nat) (xs ys : List α) : List α :=
  listTakeLast maxlen (xs ++ ys)

/-- `np.median` of a one-dimensional array: sort, then take the middle
element (odd length) or the average of the two middle elements (even
length).  numpy returns NaN on the empty array; this embedding returns 0
there and theorems about the median carry nonemptiness hypotheses. -/
def npMedian (xs : List ℚ) : ℚ :=
  let s := xs.mergeSort
  if xs.length % 2 = 1 then s.getD (xs.length / 2) 0
  else (s.getD (xs.length / 2 - 1) 0 + s.getD (xs.length / 2) 0) / 2

/-! ## constants.py -/

/-- constants.py WINDOW_SIZES["all_data"]. -/
def WINDOW_SIZES_all_data : Nat := 5000
/-- constants.py WINDOW_SIZES["high_confidence"]. -/
def WINDOW_SIZES_high_confidence : Nat := 3000
/-- constants.py WINDOW_SIZES["recent"]. -/
def WINDOW_SIZES_recent : Nat := 300
/-- constants.py WINDOW_SIZES["time_series"]. -/
def WINDOW_SIZES_time_series : Nat := 1000
/-- constants.py TRAINING_CONFIG["min_samples_for_training"]. -/
def TRAINING_CONFIG_min_samples : Nat := 100
/-- constants.py CONSENSUS_THRESHOLDS, as exact rationals. -/
def CONSENSUS_THRESHOLDS_critical : ℚ := 8/10
def CONSENSUS_THRESHOLDS_high : ℚ := 7/10
def CONSENSUS_THRESHOLDS_medium : ℚ := 5/10
def CONSENSUS_THRESHOLDS_low : ℚ := 3/10
/-- constants.py IP_SUSPICIOUS_THRESHOLD. -/
def IP_SUSPICIOUS_THRESHOLD : ℚ := 100

/-- constants.py USERNAME_TYPE_ENCODING lookup with default 0
(dict.get(key, 0)). -/
def usernameTypeEncoding (t : String) : ℚ :=
  if t = "username" then 0
  else if t = "password" then 1
  else if t = "command" then 2
  else if t = "service" then 3
  else 0

/-! ## models/statistical.py — StatisticalAnomalyDetector -/

/-- State of models/statistical.py StatisticalAnomalyDetector:
`historical_data` (deque of feature vectors, maxlen 5000) and the
`_is_trained` flag. -/
structure StatState where
  historical_data : List (List ℚ)
  is_trained : Bool
  deriving DecidableEq

/-- StatisticalAnomalyDetector.__init__. -/
def statInit : StatState := ⟨[], false⟩

/-- StatisticalAnomalyDetector.fit: append every sample of the batch to
the historical deque (maxlen 5000), then set `_is_trained` once the
history holds at least 30 samples.  There is no minimum batch size. -/
def statFit (st : StatState) (data : List (List ℚ)) : StatState :=
  let hist := dequeExtend WINDOW_SIZES_all_data st.historical_data data
  { historical_data := hist
    is_trained := if 30 ≤ hist.length then true else st.is_trained }

/-- Column `d` of the 2-d history array (numpy axis 0 slice). -/
def histColumn (hist : List (List ℚ)) (d : Nat) : List ℚ :=
  hist.map (fun row => row.getD d 0)

/-- StatisticalAnomalyDetector.predict: modified z-score (ZMAD).
Vectorized numpy code, rendered dimension-by-dimension:
per-dimension medians, median absolute deviations clamped away from zero
(`np.where(mad == 0, 0.001, mad)`), z = 0.6745·(v − median)/mad, per-
dimension score min(|z|/3.5, 1), and the mean of those scores.
Returns 0.0 when untrained. -/
def statPredict (st : StatState) (v : List ℚ) : ℚ :=
  if st.is_trained = false then 0
  else
    let hist := st.historical_data
    let dims := List.range v.length
    let medians := dims.map (fun d => npMedian (histColumn hist d))
    let madValues := dims.map (fun d =>
      npMedian ((histColumn hist d).map (fun x => |x - (medians.getD d 0)|)))
    let madClamped := madValues.map (fun m => if m = 0 then 1/1000 else m)
    let zmadScores := dims.map (fun d =>
      (6745/10000) * (v.getD d 0 - medians.getD d 0) / madClamped.getD d 0)
    let anomalyScores := zmadScores.map (fun z => min (|z| / (7/2)) 1)
    listMean anomalyScores

/-! ## Opaque external numerical libraries

sklearn (StandardScaler, DBSCAN) and tensorflow (VAE) are external
collaborators: their fitted artifacts are modelled as arbitrary functions
bundled in `ExternalML`, universally quantified in every theorem. -/

/-- Opaque sklearn/tensorflow behaviour. `scalerOf data` is the transform
of a StandardScaler fitted on `data`; `dbscanFitPredict rows` is the
label vector of `DBSCAN.fit_predict(rows)` (label -1 marks an outlier);
`vaeOf inputDim` is the reconstruction function of a trained VAE. -/
structure ExternalML where
  scalerOf : List (List ℚ) → (List ℚ → List ℚ)
  dbscanFitPredict : List (List ℚ) → List Int
  vaeOf : Nat → (List (List ℚ) → List (List ℚ))

/-! ## models/spatial.py — SpatialAnomalyDetector -/

/-- State of models/spatial.py SpatialAnomalyDetector: the `_is_trained`
flag, the fitted scaler transform, and `_training_data` (the scaled
training rows, `None` before the first successful fit). -/
structure SpatialState where
  is_trained : Bool
  scaler : List ℚ → List ℚ
  training_data : Option (List (List ℚ))

/-- SpatialAnomalyDetector.__init__ (the unfitted scaler is never invoked
on the untrained paths, so it is modelled as the identity). -/
def spatialInit : SpatialState := ⟨false, fun v => v, none⟩

/-- SpatialAnomalyDetector.fit: returns unchanged (a silent no-op) when
the batch has fewer than 50 rows; otherwise fits the scaler, stores the
scaled batch as training data and sets the trained flag. -/
def spatialFit (ext : ExternalML) (st : SpatialState) (data : List (List ℚ)) :
    SpatialState :=
  if data.length < 50 then st
  else
    let tr := ext.scalerOf data
    { is_trained := true, scaler := tr, training_data := some (data.map tr) }

/-- SpatialAnomalyDetector.predict: 0.0 when untrained or without
training data; otherwise scale the query row, stack it after the last
100 training rows, cluster with DBSCAN, and score the query row from its
cluster: 0.9 for an outlier label (-1), else
`max(0, 1 - cluster_size/len(combined) * 2)`.  An empty label vector
corresponds to the IndexError of `clusters[-1]`, caught by the
surrounding except and mapped to 0.0. -/
def spatialPredict (ext : ExternalML) (st : SpatialState) (v : List ℚ) : ℚ :=
  match st.training_data, st.is_trained with
  | some td, true =>
      let scaled := st.scaler v
      let combined := listTakeLast 100 td ++ [scaled]
      let clusters := ext.dbscanFitPredict combined
      match clusters.getLast? with
      | none => 0
      | some c =>
          if c = -1 then 9/10
          else
            let clusterSize := (clusters.filter (fun x => decide (x = c))).length
            max 0 (1 - ((clusterSize : ℚ) / (combined.length : ℚ)) * 2)
  | _, _ => 0

/-! ## models/temporal.py — TemporalAnomalyDetector -/

/-- VAE_CONFIG["sequence_length"]. -/
def VAE_CONFIG_sequence_length : Nat := 10

/-- State of models/temporal.py TemporalAnomalyDetector: trained flag,
the optional VAE reconstruction function, the rolling current sequence
(deque maxlen 10) and the window of completed sequences (deque maxlen
1000). -/
structure TemporalState where
  is_trained : Bool
  vae : Option (List (List ℚ) → List (List ℚ))
  current_sequence : List (List ℚ)
  time_series_window : List (List (List ℚ))

/-- TemporalAnomalyDetector.__init__. -/
def temporalInit : TemporalState := ⟨false, none, [], []⟩

/-- TemporalAnomalyDetector.add_sample: push the feature row onto the
current sequence; once the sequence is full (length 10), record a copy
in the time-series window. -/
def temporalAddSample (st : TemporalState) (features : List ℚ) : TemporalState :=
  let seq := listTakeLast VAE_CONFIG_sequence_length (st.current_sequence ++ [features])
  if seq.length = VAE_CONFIG_sequence_length then
    { st with current_sequence := seq,
              time_series_window :=
                listTakeLast WINDOW_SIZES_time_series (st.time_series_window ++ [seq]) }
  else { st with current_sequence := seq }

/-- TemporalAnomalyDetector.fit: a silent no-op while fewer than 50
complete sequences are buffered.  Otherwise, when no VAE exists yet,
`len(data[0])` on an empty batch raises IndexError which the except
handler absorbs (state unchanged); with a nonempty batch the VAE is
built and trained and the trained flag set.  The opaque VAE weights are
not tracked beyond the reconstruction function. -/
def temporalFit (ext : ExternalML) (st : TemporalState) (data : List (List ℚ)) :
    TemporalState :=
  if st.time_series_window.length < 50 then st
  else
    match st.vae, data with
    | none, [] => st
    | none, row :: _ =>
        { st with vae := some (ext.vaeOf row.length), is_trained := true }
    | some _, _ => { st with is_trained := true }

/-- TemporalAnomalyDetector.predict: 0.0 when untrained, without a VAE,
or while the current sequence is incomplete; otherwise the mean squared
reconstruction error of the current sequence, normalised by 0.1 and
clamped to 1. -/
def temporalPredict (st : TemporalState) (_v : List ℚ) : ℚ :=
  match st.vae, st.is_trained with
  | some recon, true =>
      if st.current_sequence.length < VAE_CONFIG_sequence_length then 0
      else
        let sequence := st.current_sequence
        let reconstruction := recon sequence
        let squaredErr := (sequence.zip reconstruction).map (fun p =>
          (p.1.zip p.2).map (fun q => (q.1 - q.2) ^ 2))
        let mse := listMean squaredErr.flatten
        min (mse / (1/10)) 1
  | _, _ => 0

/-! ## Input records

`detect()` receives a JSON-like dict; the fields the detection path reads
are modelled as typed fields with the dict.get defaults of the source
(numeric fields default 0, login_time_hour defaults 12,
avg_latency_ms distinguishes absent from 0 because
_get_detection_type tests `is not None`). -/

structure Record where
  user_id : Option String := none
  process_name : Option String := none
  process_id : ℚ := 0
  username_type : Option String := none
  avg_latency_ms : Option ℚ := none
  top_ips : List (String × ℚ) := []
  files_accessed : List String := []
  login_source : Option String := none
  login_time_hour : Option ℚ := none
  is_privileged : Bool := false
  is_suspicious_name : Bool := false
  is_suspicious_command : Bool := false
  command_line : String := ""
  parent_process : String := ""
  packets_per_second : ℚ := 0
  bytes_per_second : ℚ := 0
  unique_ips : ℚ := 0
  unique_ports : ℚ := 0
  tcp_packets : ℚ := 0
  udp_packets : ℚ := 0
  syn_packets : ℚ := 0
  max_latency_ms : ℚ := 0
  jitter_ms : ℚ := 0
  packet_loss_rate : ℚ := 0
  session_duration : ℚ := 0
  commands_executed : ℚ := 0
  privilege_escalations : ℚ := 0
  data_uploaded_mb : ℚ := 0
  data_downloaded_mb : ℚ := 0
  sudo_commands : ℚ := 0
  failed_auth_attempts : ℚ := 0
  total_attempts : ℚ := 0
  failed_attempts : ℚ := 0
  successful_attempts : ℚ := 0
  unique_source_ips : ℚ := 0
  privilege_level : ℚ := 0
  cpu_usage_percent : ℚ := 0
  memory_usage_mb : ℚ := 0
  network_connections : ℚ := 0
  files_opened : ℚ := 0
  child_processes : ℚ := 0
  syscalls_per_second : ℚ := 0
  network_bytes_sent : ℚ := 0
  network_bytes_received : ℚ := 0
  execution_time_seconds : ℚ := 0
  deriving DecidableEq

/-- The record with every field missing (all dict.get calls fall back to
their defaults). -/
def emptyRecord : Record := {}

/-- Python truthiness of an optional string field: present and
nonempty. -/
def truthyStr : Option String → Bool
  | none => false
  | some s => decide (s ≠ "")

/-- Python substring test `pat in hay` on character lists. -/
def charsContain (pat : List Char) : List Char → Bool
  | [] => pat.isPrefixOf []
  | c :: t => pat.isPrefixOf (c :: t) || charsContain pat t

/-- Python substring test `pat in hay` on strings. -/
def strContainsSub (hay pat : String) : Bool := charsContain pat.data hay.data

/-! ## ThreatDetector._get_detection_type and ._extract_features -/

/-- ThreatDetector._get_detection_type: process indicators first
(process_name truthy or process_id truthy), then a user id that is
truthy and not the sentinel "unknown", then a truthy username_type,
then presence of avg_latency_ms, else network. -/
def getDetectionType (r : Record) : String :=
  if truthyStr r.process_name || decide (r.process_id ≠ 0) then "process_monitor"
  else if truthyStr r.user_id && decide (r.user_id ≠ some "unknown") then "user_behavior"
  else if truthyStr r.username_type then "authentication"
  else if r.avg_latency_ms.isSome then "transport_qos"
  else "network"

/-- ThreatDetector._extract_features.  NOTE the branch order of the
source: a truthy user_id (including the sentinel "unknown") is tested
BEFORE process_name, and process_id is not consulted at all — this is a
different precedence than _get_detection_type. -/
def extractFeatures (r : Record) : List ℚ :=
  if truthyStr r.user_id then
    [r.session_duration / 3600,
     r.commands_executed,
     (r.files_accessed.length : ℚ),
     r.login_time_hour.getD 12,
     if r.login_source = some "remote" then 1 else 0,
     r.privilege_escalations,
     r.data_uploaded_mb,
     r.sudo_commands]
  else if truthyStr r.process_name then
    [r.cpu_usage_percent,
     r.memory_usage_mb,
     r.network_connections,
     r.files_opened,
     r.child_processes,
     if r.is_privileged then 1 else 0,
     r.syscalls_per_second,
     if r.is_suspicious_name then 1 else 0,
     if r.is_suspicious_command then 1 else 0]
  else if truthyStr r.username_type then
    [usernameTypeEncoding (r.username_type.getD "username"),
     r.total_attempts,
     r.failed_attempts,
     r.successful_attempts,
     r.unique_source_ips,
     r.privilege_level]
  else
    let totalPackets := r.tcp_packets + r.udp_packets
    let tcpRatioValue := if 0 < totalPackets then r.tcp_packets / totalPackets else 1/2
    [r.packets_per_second,
     r.bytes_per_second,
     r.unique_ips,
     r.unique_ports,
     tcpRatioValue,
     r.syn_packets]

/-! ## rules/network_rules.py — NetworkRuleEngine.detect -/

/-- NetworkRuleEngine.detect: static threshold rules for port scan,
DDoS, data exfiltration, SYN flood and the QoS anomalies.  The derived
tcp ratio falls back to 0 (not 0.5) when there are no packets. -/
def networkRulesDetect (r : Record) : List (String × ℚ) :=
  let totalPackets := r.tcp_packets + r.udp_packets
  let tcpRatioValue := if 0 < totalPackets then r.tcp_packets / totalPackets else 0
  let portScan := if 20 < r.unique_ports ∧ 100 < r.packets_per_second then
      [("port_scan", (9 : ℚ)/10)] else []
  let ddos := if 1000 < r.packets_per_second ∧ 1000000 < r.bytes_per_second then
      [("ddos", (95 : ℚ)/100)] else []
  let exfil := if 5000000 < r.bytes_per_second ∧ (9 : ℚ)/10 < tcpRatioValue then
      [("data_exfiltration", (85 : ℚ)/100)] else []
  let synFlood := if 500 < r.syn_packets ∧ (95 : ℚ)/100 < tcpRatioValue then
      [("syn_flood", (92 : ℚ)/100)] else []
  let avgLatency := r.avg_latency_ms.getD 0
  let latency := if 100 < r.max_latency_ms ∧ 50 < avgLatency then
      [("latency_anomaly", (85 : ℚ)/100)] else []
  let jitterThreat := if 10 < r.jitter_ms then [("jitter_anomaly", (8 : ℚ)/10)] else []
  let lossThreat := if (5 : ℚ)/100 < r.packet_loss_rate then
      [("packet_loss", (88 : ℚ)/100)] else []
  let qosFactors : Nat :=
    (if 30 < avgLatency then 1 else 0) + (if 5 < r.jitter_ms then 1 else 0) +
      (if (2 : ℚ)/100 < r.packet_loss_rate then 1 else 0)
  let qosDegradation := if 2 ≤ qosFactors then [("qos_degradation", (9 : ℚ)/10)] else []
  portScan ++ ddos ++ exfil ++ synFlood ++ latency ++ jitterThreat ++ lossThreat ++
    qosDegradation

/-! ## rules/user_behavior_rules.py — UserBehaviorRuleEngine.detect -/

/-- UserBehaviorRuleEngine.detect: session anomalies, privilege abuse,
user data exfiltration and insider-threat rules, in source order. -/
def userBehaviorRulesDetect (r : Record) : List (String × ℚ) :=
  let sessionHours := r.session_duration / 3600
  let commands := r.commands_executed
  let longSession := if 12 < sessionHours then
      [("long_session_anomaly", min (9/10) (1/2 + sessionHours / 24))] else []
  let excessiveCommands := if 1000 < commands then
      [("excessive_commands", min (95/100) (6/10 + commands / 2000))] else []
  let loginHour := r.login_time_hour.getD 12
  let offHours := if 23 ≤ loginHour ∨ loginHour ≤ 6 then
      [("off_hours_activity",
        min (6/10 + (if 10 < commands then 2/10 else 0) +
             (if 0 < r.privilege_escalations then 1/10 else 0)) (95/100))] else []
  let escalations := r.privilege_escalations
  let privilegeAbuse := if 5 < escalations then
      [("privilege_escalation_abuse", min (9/10) (7/10 + escalations / 20))] else []
  let sudoUse := if 20 < r.sudo_commands then
      [("excessive_sudo_usage", min (85/100) (6/10 + r.sudo_commands / 50))] else []
  let sensitiveFiles := r.files_accessed.filter (fun f =>
      strContainsSub f.toLower "passwd" || strContainsSub f.toLower "shadow" ||
        strContainsSub f.toLower "sudoers")
  let sensitiveAccess := if sensitiveFiles ≠ [] then
      [("sensitive_file_access",
        min (95/100) (8/10 + (sensitiveFiles.length : ℚ) * (5/100)))] else []
  let download := r.data_downloaded_mb
  let largeDownload := if 1000 < download then
      [("user_large_download", min (9/10) (6/10 + download / 5000))] else []
  let upload := r.data_uploaded_mb
  let exfiltration := if 500 < upload then
      [("user_data_exfiltration", min (95/100) (7/10 + upload / 2000))] else []
  let filesCount := (r.files_accessed.length : ℚ)
  let excessiveFiles := if 100 < filesCount then
      [("excessive_file_access", min (8/10) (1/2 + filesCount / 500))] else []
  let remoteActivity := if r.login_source = some "remote" ∧ 200 < commands then
      [("insider_remote_activity", 75/100 + min (2/10) (commands / 1000))] else []
  let probing := if 10 < r.failed_auth_attempts then
      [("insider_auth_probing", min (85/100) (6/10 + r.failed_auth_attempts / 50))] else []
  let riskFactors : ℚ :=
    (if 0 < r.privilege_escalations then 1 else 0) +
      (if 10 < r.data_uploaded_mb then 1 else 0) +
      (if r.login_source = some "remote" then 1 else 0)
  let offHoursInsider := if (23 ≤ loginHour ∨ loginHour ≤ 6) ∧ 50 < commands then
      [("insider_off_hours_activity", 65/100 + riskFactors * (1/10))] else []
  longSession ++ excessiveCommands ++ offHours ++ privilegeAbuse ++ sudoUse ++
    sensitiveAccess ++ largeDownload ++ exfiltration ++ excessiveFiles ++
    remoteActivity ++ probing ++ offHoursInsider

/-! ## rules/process_monitor_rules.py — ProcessMonitorRuleEngine.detect -/

/-- ProcessMonitorRuleEngine.detect: resource abuse, malware behaviour,
privilege escalation, persistence and suspicious-process rules, in
source order. -/
def processMonitorRulesDetect (r : Record) : List (String × ℚ) :=
  let cpu := r.cpu_usage_percent
  let cpuAbuse := if 90 < cpu then
      [("cpu_resource_abuse", min (9/10) (6/10 + cpu / 100))] else []
  let memAbuse := if 4096 < r.memory_usage_mb then
      [("memory_resource_abuse", min (85/100) (1/2 + r.memory_usage_mb / 8192))] else []
  let connAbuse := if 100 < r.network_connections then
      [("network_connection_abuse", min (9/10) (7/10 + r.network_connections / 500))] else []
  let filesOpened := r.files_opened
  let fileAbuse := if 500 < filesOpened then
      [("file_handle_abuse", min (8/10) (6/10 + filesOpened / 1000))] else []
  let children := r.child_processes
  let spawning := if 10 < children then
      [("process_spawning_anomaly", min (95/100) (8/10 + children / 50))] else []
  let syscalls := r.syscalls_per_second
  let syscallActivity := if 1000 < syscalls then
      [("high_syscall_activity", min (9/10) (7/10 + syscalls / 5000))] else []
  let totalNetwork := r.network_bytes_sent / 1024 / 1024 +
    r.network_bytes_received / 1024 / 1024
  let procNameLower := (r.process_name.getD "").toLower
  let expectedNetwork :=
    strContainsSub procNameLower "chrome" || strContainsSub procNameLower "firefox" ||
      strContainsSub procNameLower "curl" || strContainsSub procNameLower "wget" ||
      strContainsSub procNameLower "ssh" || strContainsSub procNameLower "scp"
  let unexpectedNetwork := if 100 < totalNetwork ∧ expectedNetwork = false then
      [("unexpected_network_activity", min (85/100) (6/10 + totalNetwork / 500))] else []
  let networkMb := (r.network_bytes_sent + r.network_bytes_received) / 1024 / 1024
  let unprivCpu := if r.is_privileged = false ∧ 80 < cpu then
      [("unprivileged_high_cpu", 75/100 + min (2/10) ((cpu - 80) / 100))] else []
  let privNetwork := if r.is_privileged = true ∧ 50 < networkMb then
      [("privileged_network_activity", 8/10 + min (15/100) (networkMb / 200))] else []
  let privFiles := if r.is_privileged = true ∧ 200 < filesOpened then
      [("privileged_file_harvesting", 7/10 + min (25/100) (filesOpened / 1000))] else []
  let executionHours := r.execution_time_seconds / 3600
  let persistenceRisk : ℚ :=
    (if 10 < networkMb then 1 else 0) + (if 100 < syscalls then 1 else 0) +
      (if r.is_suspicious_name then 1 else 0)
  let persistence := if 24 < executionHours ∧ 2 ≤ persistenceRisk then
      [("persistence_mechanism", min (7/10 + persistenceRisk * (1/10)) (95/100))] else []
  let suspName := if r.is_suspicious_name then
      [("suspicious_process_name",
        min (8/10 + (if r.is_privileged then 1/10 else 0) +
             (if 5 < r.network_connections then 5/100 else 0)) (95/100))] else []
  let commandLower := r.command_line.toLower
  let suspCommand := if r.is_suspicious_command then
      [("suspicious_command_execution",
        if strContainsSub commandLower "reverse shell" ||
           strContainsSub commandLower "nc -l" ||
           strContainsSub commandLower "/etc/passwd" then (95 : ℚ)/100 else 85/100)] else []
  let parentLower := r.parent_process.toLower
  let suspiciousParentHit :=
    strContainsSub parentLower "explorer.exe" || strContainsSub parentLower "winlogon.exe" ||
      strContainsSub parentLower "csrss.exe" || strContainsSub parentLower "svchost.exe" ||
      strContainsSub parentLower "lsass.exe" || strContainsSub parentLower "systemd"
  let legitChild :=
    strContainsSub procNameLower "system" || strContainsSub procNameLower "service" ||
      strContainsSub procNameLower "daemon"
  let injection := if suspiciousParentHit = true ∧ legitChild = false then
      [("process_injection_indicator", (8 : ℚ)/10)] else []
  cpuAbuse ++ memAbuse ++ connAbuse ++ fileAbuse ++ spawning ++ syscallActivity ++
    unexpectedNetwork ++ unprivCpu ++ privNetwork ++ privFiles ++ persistence ++
    suspName ++ suspCommand ++ injection

/-! ## ThreatDetector orchestrator -/

/-- ThreatDetector._detect_with_rules: one engine chosen by detection
type; authentication and every other type fall back to the network
engine. -/
def detectWithRules (r : Record) : List (String × ℚ) :=
  let t := getDetectionType r
  if t = "network" then networkRulesDetect r
  else if t = "user_behavior" then userBehaviorRulesDetect r
  else if t = "process_monitor" then processMonitorRulesDetect r
  else networkRulesDetect r

/-- ThreatDetector._identify_attacking_ips: the IPs of top_ips whose
packet count strictly exceeds IP_SUSPICIOUS_THRESHOLD, in dict order. -/
def identifyAttackingIps (r : Record) : List String :=
  (r.top_ips.filter (fun p => decide (IP_SUSPICIOUS_THRESHOLD < p.2))).map Prod.fst

/-- ThreatDetector._is_high_confidence_sample. -/
def isHighConfidenceSample (r : Record) : Bool :=
  decide (r.packets_per_second < 500 ∧ r.unique_ports < 15)

/-- Orchestrator state: the three data windows and counters of
ThreatDetector.__init__, the executor flag set by shutdown(), and the
three detector states. -/
structure OrchState where
  high_confidence_window : List (List ℚ)
  all_data_window : List (List ℚ)
  recent_window : List (List ℚ)
  high_confidence_count : Nat
  total_samples_count : Nat
  executor_shutdown : Bool
  spatial : SpatialState
  temporal : TemporalState
  statistical : StatState

/-- ThreatDetector.__init__ (fresh state, nothing loaded from disk,
executor alive). -/
def orchInit : OrchState :=
  ⟨[], [], [], 0, 0, false, spatialInit, temporalInit, statInit⟩

/-- ThreatDetector._get_model_scores. -/
def getModelScores (st : OrchState) : List (String × ℚ) :=
  [("spatial_trained", if st.spatial.is_trained then 1 else 0),
   ("temporal_trained", if st.temporal.is_trained then 1 else 0),
   ("statistical_trained", if st.statistical.is_trained then 1 else 0)]

/-- The per-model scores gathered by _detect_with_ml_ensemble: each
model contributes predict() when trained and 0.0 otherwise; the temporal
model first records the sample in its sequence.  A model failure is
caught per future and mapped to 0.0 — inside this call, never aborting
the ensemble. -/
def mlEnsembleScores (ext : ExternalML) (st : OrchState) (features : List ℚ) :
    List (String × ℚ) :=
  let tempSt := temporalAddSample st.temporal features
  [("spatial", if st.spatial.is_trained then spatialPredict ext st.spatial features else 0),
   ("temporal", if tempSt.is_trained then temporalPredict tempSt features else 0),
   ("statistical", if st.statistical.is_trained then statPredict st.statistical features else 0)]

/-- The consensus tail of _detect_with_ml_ensemble (source lines
253-270): keep the strictly positive scores, require at least 2 of
them, average them, and classify by strict comparison against the
CONSENSUS_THRESHOLDS in descending order. -/
def mlConsensus (scores : List (String × ℚ)) : List (String × ℚ) :=
  let activeScores := (scores.map Prod.snd).filter (fun s => decide (0 < s))
  if 2 ≤ activeScores.length then
    let finalScore := listMean activeScores
    if CONSENSUS_THRESHOLDS_critical < finalScore then [("ml_critical_risk", finalScore)]
    else if CONSENSUS_THRESHOLDS_high < finalScore then [("ml_high_risk", finalScore)]
    else if CONSENSUS_THRESHOLDS_medium < finalScore then [("ml_medium_risk", finalScore)]
    else if CONSENSUS_THRESHOLDS_low < finalScore then [("ml_low_risk", finalScore)]
    else []
  else []

/-- ThreatDetector._detect_with_ml_ensemble as a fallible step: after
shutdown() the ThreadPoolExecutor.submit calls raise RuntimeError, which
escapes this method (only per-future failures are caught inside it). -/
def mlEnsembleE (ext : ExternalML) (st : OrchState) (features : List ℚ) :
    Except String (List (String × ℚ)) :=
  if st.executor_shutdown then
    Except.error "cannot schedule new futures after shutdown"
  else Except.ok (mlConsensus (mlEnsembleScores ext st features))

/-- models/base.py DetectionResult, with the constructor defaults
(attacking_ips [], detection_type "network", model_scores empty). -/
structure DetectionResult where
  threat_detected : Bool
  confidence : ℚ
  threat_types : List String
  attacking_ips : List String
  detection_type : String := "network"
  model_scores : List (String × ℚ) := []
  deriving DecidableEq

/-- The safe negative result `DetectionResult(False, 0.0, [], [])`
produced by detect()'s except handler. -/
def negativeResult : DetectionResult :=
  { threat_detected := false, confidence := 0, threat_types := [], attacking_ips := [] }

/-- The body of ThreatDetector.detect (steps inside its try block):
feature extraction, attacking-IP identification, rule dispatch, ML
ensemble with consensus, then combination: if any threat was produced,
a positive result with the maximum confidence, else a negative result
carrying the attacking IPs and the detection type. -/
def detectBody (ext : ExternalML) (st : OrchState) (r : Record) :
    Except String DetectionResult :=
  let features := extractFeatures r
  let attackingIps := identifyAttackingIps r
  let ruleThreats := detectWithRules r
  match mlEnsembleE ext st features with
  | Except.error e => Except.error e
  | Except.ok mlThreats =>
    let allThreats := ruleThreats ++ mlThreats
    if allThreats.isEmpty then
      Except.ok { threat_detected := false, confidence := 0, threat_types := [],
                  attacking_ips := attackingIps, detection_type := getDetectionType r }
    else
      Except.ok { threat_detected := true,
                  confidence := listMaxD (allThreats.map Prod.snd),
                  threat_types := allThreats.map Prod.fst,
                  attacking_ips := attackingIps,
                  detection_type := getDetectionType r,
                  model_scores := getModelScores st }

/-- ThreatDetector.detect: the try/except boundary — any failure of the
body is converted to the safe negative DetectionResult, so the caller
never sees an exception. -/
def detect (ext : ExternalML) (st : OrchState) (r : Record) : DetectionResult :=
  match detectBody ext st r with
  | Except.ok res => res
  | Except.error _ => negativeResult

/-- ThreatDetector.train_models: silent early return while the
high-confidence window holds fewer than
TRAINING_CONFIG["min_samples_for_training"] samples; otherwise snapshot
the windows and fit the three detectors (spatial and statistical on the
all-data snapshot when it exceeds 50 samples, temporal on the
high-confidence snapshot). -/
def trainModels (ext : ExternalML) (st : OrchState) : OrchState :=
  if st.high_confidence_window.length < TRAINING_CONFIG_min_samples then st
  else
    let xConservative := st.high_confidence_window
    let xAll := if 50 < st.all_data_window.length then st.all_data_window
                else xConservative
    { st with spatial := spatialFit ext st.spatial xAll,
              temporal := temporalFit ext st.temporal xConservative,
              statistical := statFit st.statistical xAll }

/-! ## Lock-scope trace of train_models

The claims about the training cycle's locking discipline are about the
syntactic extent of the `with self._lock:` block in train_models
(source lines 357-368): the lock is acquired, the two window snapshots
are taken, the three fits and the metrics update run, and only then is
the lock released, after which the models are saved.  That block
structure is embedded as an event trace. -/

inductive TrainEvent where
  | acquireLock : TrainEvent
  | releaseLock : TrainEvent
  | snapshot : String → TrainEvent
  | fitModel : String → TrainEvent
  | updateMetrics : TrainEvent
  | saveModels : TrainEvent
  deriving DecidableEq

/-- The event trace of one train_models call: empty when the
high-confidence window is too small (early return before the lock),
otherwise the literal order of operations of the source. -/
def trainModelsTrace (sufficientData : Bool) : List TrainEvent :=
  if sufficientData = false then []
  else
    [TrainEvent.acquireLock,
     TrainEvent.snapshot "high_confidence",
     TrainEvent.snapshot "all_data",
     TrainEvent.fitModel "spatial",
     TrainEvent.fitModel "temporal",
     TrainEvent.fitModel "statistical",
     TrainEvent.updateMetrics,
     TrainEvent.releaseLock,
     TrainEvent.saveModels]

/-- Is this event a detector fit? -/
def isFitEvent : TrainEvent → Bool
  | TrainEvent.fitModel _ => true
  | _ => false

/-- The store mutex is held when event `i` of the trace executes:
strictly more acquisitions than releases precede it. -/
def lockHeldBefore (tr : List TrainEvent) (i : Nat) : Bool :=
  decide (((tr.take i).filter (fun e => decide (e = TrainEvent.releaseLock))).length
    < ((tr.take i).filter (fun e => decide (e = TrainEvent.acquireLock))).length)

/-- Some fit event of the trace executes while the mutex is held. -/
def fitWhileHoldingLock (tr : List TrainEvent) : Bool :=
  (List.range tr.length).any (fun i =>
    isFitEvent (tr.getD i TrainEvent.updateMetrics) && lockHeldBefore tr i)

/-- Every fit event of the trace executes while the mutex is held. -/
def allFitsUnderLock (tr : List TrainEvent) : Bool :=
  (List.range tr.length).all (fun i =>
    !(isFitEvent (tr.getD i TrainEvent.updateMetrics)) || lockHeldBefore tr i)

/-- A trivial instantiation of the opaque external libraries, used to
evaluate the embedding at concrete states. -/
def extId : ExternalML := ⟨fun _ => id, fun _ => [], fun _ => id⟩

/-! ## Helper lemmas -/

theorem npMedian_of_sorted (xs : List ℚ) (h : xs.Sorted (· ≤ ·)) :
    npMedian xs = if xs.length % 2 = 1 then xs.getD (xs.length / 2) 0
      else (xs.getD (xs.length / 2 - 1) 0 + xs.getD (xs.length / 2) 0) / 2 := by
  unfold npMedian
  rw [List.mergeSort_eq_self h]

theorem getD_replicate_of_lt (n i : Nat) (a : ℚ) (h : i < n) :
    (List.replicate n a).getD i 0 = a := by
  rw [List.getD_eq_getElem?_getD]
  have : (List.replicate n a)[i]? = some a := by
    rw [List.getElem?_eq_getElem (by simpa using h)]
    simp
  simp [this]

theorem sorted_replicate (n : Nat) (a : ℚ) : (List.replicate n a).Sorted (· ≤ ·) :=
  List.pairwise_replicate.mpr (Or.inr (le_refl a))

theorem npMedian_replicate (n : Nat) (a : ℚ) (h : 0 < n) :
    npMedian (List.replicate n a) = a := by
  rw [npMedian_of_sorted _ (sorted_replicate n a)]
  have hlen : (List.replicate n a).length = n := List.length_replicate _ _
  rcases Nat.even_or_odd n with he | ho
  · have h2 : n % 2 = 0 := Nat.even_iff.mp he
    rw [hlen]
    simp only [h2]
    rw [getD_replicate_of_lt _ _ _ (Nat.div_lt_self h one_lt_two),
        getD_replicate_of_lt _ _ _
          (lt_of_le_of_lt (Nat.sub_le _ _) (Nat.div_lt_self h one_lt_two))]
    ring_nf
    simp
  · have h2 : n % 2 = 1 := Nat.odd_iff.mp ho
    rw [hlen]
    simp only [h2]
    rw [if_true, getD_replicate_of_lt _ _ _ (Nat.div_lt_self h one_lt_two)]

theorem mergeSort_map_add (xs : List ℚ) (c : ℚ) :
    (xs.map (fun x => x + c)).mergeSort = (xs.mergeSort).map (fun x => x + c) :=
  List.eq_of_perm_of_sorted
    (((xs.map (fun x => x + c)).mergeSort_perm _).trans
      (((xs.mergeSort_perm _).map (fun x => x + c)).symm))
    (List.sorted_mergeSort' _)
    (List.Pairwise.map (fun x => x + c)
      (fun a b hab => by simpa using add_le_add_right hab c)
      (List.sorted_mergeSort' xs))

theorem getD_map_add (l : List ℚ) (c : ℚ) (i : Nat) (hi : i < l.length) :
    (l.map (fun x => x + c)).getD i 0 = l.getD i 0 + c := by
  rw [List.getD_eq_getElem?_getD, List.getD_eq_getElem?_getD, List.getElem?_map,
      List.getElem?_eq_getElem hi]
  simp

theorem npMedian_map_add (xs : List ℚ) (c : ℚ) (h : xs ≠ []) :
    npMedian (xs.map (fun x => x + c)) = npMedian xs + c := by
  have hpos : 0 < xs.length := List.length_pos.mpr h
  have hlen : (xs.mergeSort).length = xs.length := (xs.mergeSort_perm _).length_eq
  have hdiv : xs.length / 2 < xs.length := Nat.div_lt_self hpos one_lt_two
  unfold npMedian
  rw [mergeSort_map_add, List.length_map]
  by_cases hodd : xs.length % 2 = 1
  · simp only [if_pos hodd]
    exact getD_map_add _ _ _ (by omega)
  · simp only [if_neg hodd]
    rw [getD_map_add _ _ _ (by omega), getD_map_add _ _ _ (by omega)]
    ring

theorem rangeMap_getD (f : Nat → ℚ) (n d : Nat) (h : d < n) :
    ((List.range n).map f).getD d 0 = f d := by
  rw [List.getD_eq_getElem?_getD, List.getElem?_map, List.getElem?_range h]
  simp

theorem listMean_nonneg (xs : List ℚ) (h : ∀ x ∈ xs, 0 ≤ x) : 0 ≤ listMean xs :=
  div_nonneg (List.sum_nonneg h) (Nat.cast_nonneg _)

theorem listMean_le_one (xs : List ℚ) (h : ∀ x ∈ xs, x ≤ 1) : listMean xs ≤ 1 := by
  cases xs with
  | nil => norm_num [listMean]
  | cons a t =>
    have hpos : (0 : ℚ) < ((a :: t).length : ℚ) := by
      exact_mod_cast Nat.succ_pos t.length
    rw [listMean, div_le_one hpos]
    have hb := List.sum_le_card_nsmul (a :: t) 1 h
    simpa using hb

theorem statPredict_formula (st : StatState) (v : List ℚ) (h : st.is_trained = true) :
    statPredict st v = listMean ((List.range v.length).map (fun d =>
      min (|(6745/10000) *
            (v.getD d 0 - npMedian (histColumn st.historical_data d)) /
            (if npMedian ((histColumn st.historical_data d).map
                (fun x => |x - npMedian (histColumn st.historical_data d)|)) = 0
             then 1/1000
             else npMedian ((histColumn st.historical_data d).map
                (fun x => |x - npMedian (histColumn st.historical_data d)|)))| / (7/2)) 1)) := by
  unfold statPredict
  rw [h]
  rw [if_neg (by decide : ¬ (true = false))]
  apply congrArg listMean
  rw [List.map_map]
  apply List.map_congr_left
  intro d hd
  have hdn : d < v.length := List.mem_range.mp hd
  simp only [Function.comp_apply]
  rw [List.map_map, rangeMap_getD _ _ _ hdn]
  rw [rangeMap_getD _ _ _ hdn]
  simp only [Function.comp_def]
  rw [rangeMap_getD _ _ _ hdn]

/-! ## Claim theorems -/

/-- C2: for every mapping of detector names to scores, the consensus
step keeps exactly the strictly positive scores as active, and whenever
fewer than 2 scores are active it emits no synthetic threat (bucket
none), regardless of the magnitude of any single remaining score. -/
theorem consensus_requires_two_active (scores : List (String × ℚ))
    (h : ((scores.map Prod.snd).filter (fun s => decide (0 < s))).length < 2) :
    mlConsensus scores = [] := by
  simp only [mlConsensus]
  rw [if_neg (by omega)]

/-- Witness for C2: a single active score of 1000 still yields no
synthetic threat. -/
theorem consensus_requires_two_active_witness :
    mlConsensus [("statistical", 1000)] = [] :=
  consensus_requires_two_active [("statistical", 1000)] (by decide)

/-- C3 counterexample: with scores {0.8, 0.8} both active, the
representative score is exactly 0.8; the claim's non-strict thresholds
(critical when representative ≥ 0.8) demand the critical bucket, but the
source compares strictly (`final_score > 0.8`) and emits ml_high_risk. -/
theorem consensus_threshold_counterexample :
    listMean ((([("spatial", (4:ℚ)/5), ("statistical", (4:ℚ)/5)].map Prod.snd).filter
      (fun s => decide (0 < s)))) = 8/10 ∧
    CONSENSUS_THRESHOLDS_critical ≤ 8/10 ∧
    mlConsensus [("spatial", (4:ℚ)/5), ("statistical", (4:ℚ)/5)]
      = [("ml_high_risk", 4/5)] := by
  refine ⟨by norm_num [listMean], by norm_num [CONSENSUS_THRESHOLDS_critical],
    by norm_num [mlConsensus, listMean, CONSENSUS_THRESHOLDS_critical,
      CONSENSUS_THRESHOLDS_high, CONSENSUS_THRESHOLDS_medium, CONSENSUS_THRESHOLDS_low]⟩

/-- C3 amended: with at least 2 active (strictly positive) scores the
representative equals the arithmetic mean of the active scores and the
bucket is decided by STRICT comparison in descending order (critical
when representative > 0.8, high when > 0.7, medium when > 0.5, low when
> 0.3, none otherwise — at an exact threshold value the lower bucket
applies); when the bucket is not none exactly one synthetic threat
"ml_<bucket>_risk" is emitted with confidence equal to the
representative. -/
theorem consensus_buckets_strict (scores : List (String × ℚ))
    (h : 2 ≤ ((scores.map Prod.snd).filter (fun s => decide (0 < s))).length) :
    mlConsensus scores =
      (if 8/10 < listMean ((scores.map Prod.snd).filter (fun s => decide (0 < s))) then
        [("ml_critical_risk",
          listMean ((scores.map Prod.snd).filter (fun s => decide (0 < s))))]
      else if 7/10 < listMean ((scores.map Prod.snd).filter (fun s => decide (0 < s))) then
        [("ml_high_risk",
          listMean ((scores.map Prod.snd).filter (fun s => decide (0 < s))))]
      else if 5/10 < listMean ((scores.map Prod.snd).filter (fun s => decide (0 < s))) then
        [("ml_medium_risk",
          listMean ((scores.map Prod.snd).filter (fun s => decide (0 < s))))]
      else if 3/10 < listMean ((scores.map Prod.snd).filter (fun s => decide (0 < s))) then
        [("ml_low_risk",
          listMean ((scores.map Prod.snd).filter (fun s => decide (0 < s))))]
      else []) := by
  simp only [mlConsensus, CONSENSUS_THRESHOLDS_critical, CONSENSUS_THRESHOLDS_high,
             CONSENSUS_THRESHOLDS_medium, CONSENSUS_THRESHOLDS_low]
  rw [if_pos h]

/-- Witness for C3 amended: two active scores averaging exactly 0.8
land in the high bucket. -/
theorem consensus_buckets_strict_witness :
    mlConsensus [("a", (4:ℚ)/5), ("b", (4:ℚ)/5)] = [("ml_high_risk", 4/5)] := by
  rw [consensus_buckets_strict [("a", (4:ℚ)/5), ("b", (4:ℚ)/5)] (by norm_num)]
  norm_num [listMean]

/-- C9: train_models called while the high-confidence window holds
fewer than TRAINING_CONFIG["min_samples_for_training"] samples is a
silent no-op: the returned state (every window, counter, detector state
and trained flag) is exactly the input state. -/
theorem train_models_insufficient_noop (ext : ExternalML) (st : OrchState)
    (h : st.high_confidence_window.length < TRAINING_CONFIG_min_samples) :
    trainModels ext st = st := by
  unfold trainModels
  rw [if_pos h]

/-- Witness for C9: the freshly constructed orchestrator has an empty
high-confidence window, so train_models leaves it unchanged. -/
theorem train_models_insufficient_noop_witness :
    trainModels extId orchInit = orchInit :=
  train_models_insufficient_noop extId orchInit (by decide)

/-- C10 counterexample: in the train_models trace, the event at index 3
is the spatial fit and it executes while the store mutex is held —
the `with self._lock:` block of the source encloses the three fits, so
some fit runs under the lock, refuting the claim that fitting never
holds the SampleStore mutex. -/
theorem training_lock_counterexample :
    fitWhileHoldingLock (trainModelsTrace true) = true ∧
    (trainModelsTrace true).getD 3 TrainEvent.updateMetrics
      = TrainEvent.fitModel "spatial" ∧
    lockHeldBefore (trainModelsTrace true) 3 = true := by
  refine ⟨by decide, by decide, by decide⟩

/-- C10 amended: during a training cycle the snapshots AND every
detector fit run inside the store's mutex (the lock is released only
after all three fits and the metrics update), so concurrent ingestion
is blocked while fitting is in progress; only model saving runs outside
the lock, and an insufficient-data cycle produces no events at all. -/
theorem training_fits_under_lock :
    allFitsUnderLock (trainModelsTrace true) = true ∧
    trainModelsTrace false = [] ∧
    lockHeldBefore (trainModelsTrace true) 8 = false := by
  refine ⟨by decide, by decide, by decide⟩

/-- C1: detect() never raises to its caller: any failure of the body
(rule, ML and combination steps) is caught at the detect boundary and
converted to the safe negative DetectionResult with threat_detected
false and confidence 0; in particular a record missing every numeric
field, given to a freshly constructed detector, yields
threat_detected = false and confidence = 0 (whatever the external
libraries do). -/
theorem detect_exception_boundary :
    (∀ ext st r e, detectBody ext st r = Except.error e →
      detect ext st r = negativeResult ∧
      negativeResult.threat_detected = false ∧ negativeResult.confidence = 0) ∧
    (∀ ext, (detect ext orchInit emptyRecord).threat_detected = false ∧
      (detect ext orchInit emptyRecord).confidence = 0) := by
  constructor
  · intro ext st r e h
    refine ⟨?_, rfl, rfl⟩
    unfold detect
    rw [h]
  · intro ext
    have h1 : detectWithRules emptyRecord = [] := by
      norm_num [detectWithRules, getDetectionType, networkRulesDetect, emptyRecord,
        truthyStr]
    have h2 : mlEnsembleScores ext orchInit (extractFeatures emptyRecord)
        = [("spatial", 0), ("temporal", 0), ("statistical", 0)] := by
      norm_num [mlEnsembleScores, orchInit, spatialInit, temporalInit, statInit,
        temporalAddSample, listTakeLast, VAE_CONFIG_sequence_length,
        WINDOW_SIZES_time_series]
    have he : mlEnsembleE ext orchInit (extractFeatures emptyRecord)
        = Except.ok [] := by
      unfold mlEnsembleE
      rw [show orchInit.executor_shutdown = false from rfl]
      rw [if_neg (by simp)]
      rw [h2]
      norm_num [mlConsensus]
    have h3 : detect ext orchInit emptyRecord =
        { threat_detected := false, confidence := 0, threat_types := [],
          attacking_ips := [], detection_type := "network" } := by
      unfold detect detectBody
      simp only []
      rw [he, h1]
      norm_num [identifyAttackingIps, getDetectionType, emptyRecord, truthyStr]
    rw [h3]
    exact ⟨rfl, rfl⟩

/-- Witness for C1: after shutdown() the executor refuses new futures,
the body fails, and detect returns the safe negative result. -/
theorem detect_exception_boundary_witness :
    detect extId { orchInit with executor_shutdown := true } emptyRecord
      = negativeResult :=
  (detect_exception_boundary.1 extId { orchInit with executor_shutdown := true }
    emptyRecord "cannot schedule new futures after shutdown" rfl).1

/-- C4 counterexample: a record carrying both a user id and a process
name has detection type process_monitor (the type precedence tests the
process indicator first), but _extract_features tests the user id
first and produces the 8-entry user-behavior vector instead of the
9-entry process vector. -/
theorem feature_precedence_counterexample :
    getDetectionType { user_id := some "alice", process_name := some "bash" }
      = "process_monitor" ∧
    (extractFeatures { user_id := some "alice", process_name := some "bash" }).length
      = 8 := by
  refine ⟨by decide, by decide⟩

/-- C4 amended: the feature-vector length is decided by the
extractor's own precedence — 8 whenever the user id is truthy
(including the sentinel "unknown"), else 9 when a process name is
present, else 6 when a username-type is present, else 6 (network) —
which differs from the detection-type precedence (process indicator
first); user_behavior records do always get the 8-entry vector, since
their classification implies a truthy user id. -/
theorem feature_length_by_extractor (r : Record) :
    (extractFeatures r).length =
      (if truthyStr r.user_id then 8
       else if truthyStr r.process_name then 9
       else if truthyStr r.username_type then 6 else 6) ∧
    (getDetectionType r = "user_behavior" → (extractFeatures r).length = 8) := by
  have hlen : (extractFeatures r).length =
      (if truthyStr r.user_id then 8
       else if truthyStr r.process_name then 9
       else if truthyStr r.username_type then 6 else 6) := by
    unfold extractFeatures
    split_ifs <;> rfl
  refine ⟨hlen, fun h => ?_⟩
  by_cases hu : truthyStr r.user_id
  · rw [hlen, if_pos hu]
  · exfalso
    unfold getDetectionType at h
    split_ifs at h with h1 h2 h3 h4 <;> simp_all

/-- Witness for C4 amended: a pure user-behavior record gets the
8-entry vector. -/
theorem feature_length_by_extractor_witness :
    (extractFeatures { user_id := some "alice" }).length = 8 :=
  (feature_length_by_extractor { user_id := some "alice" }).2 (by decide)

/-- C5: for every trained history and query vector, the statistical
detector's predict is, per dimension d, the modified z-score pipeline —
median, median absolute deviation clamped to 0.001 when exactly 0,
z = 0.6745·(v_d − m_d)/mad_d, contribution min(|z|/3.5, 1) — averaged
over the D dimensions; and on a history of 30 copies of [100] with
query [500] it returns exactly 1. -/
theorem zmad_predict_spec :
    (∀ st v, st.is_trained = true →
      statPredict st v = listMean ((List.range v.length).map (fun d =>
        min (|(6745/10000) *
              (v.getD d 0 - npMedian (histColumn st.historical_data d)) /
              (if npMedian ((histColumn st.historical_data d).map
                  (fun x => |x - npMedian (histColumn st.historical_data d)|)) = 0
               then 1/1000
               else npMedian ((histColumn st.historical_data d).map
                  (fun x => |x - npMedian (histColumn st.historical_data d)|)))| /
            (7/2)) 1))) ∧
    statPredict ⟨List.replicate 30 [(100:ℚ)], true⟩ [500] = 1 := by
  constructor
  · exact statPredict_formula
  · rw [statPredict_formula _ _ rfl]
    have hr1 : List.range 1 = [0] := rfl
    have hcol : histColumn (List.replicate 30 [(100:ℚ)]) 0
        = List.replicate 30 (100:ℚ) := by
      unfold histColumn
      rw [List.map_replicate]
      rfl
    have hmed : npMedian (histColumn (List.replicate 30 [(100:ℚ)]) 0) = 100 := by
      rw [hcol]
      exact npMedian_replicate 30 100 (by norm_num)
    have hmad : npMedian ((histColumn (List.replicate 30 [(100:ℚ)]) 0).map
        (fun x => |x - (100:ℚ)|)) = 0 := by
      rw [hcol, List.map_replicate]
      have habs0 : |(100:ℚ) - 100| = 0 := by norm_num
      rw [habs0]
      exact npMedian_replicate 30 0 (by norm_num)
    simp only [List.length_singleton, hr1, List.map_cons, List.map_nil, hmed, hmad]
    rw [if_true]
    have hgd : ([ (500:ℚ) ]).getD 0 0 = 500 := rfl
    rw [hgd]
    rw [abs_of_nonneg (by norm_num)]
    rw [min_eq_right (by norm_num)]
    norm_num [listMean]

/-- Witness for C5: the formula applied at a concrete trained state. -/
theorem zmad_predict_spec_witness :
    statPredict ⟨[[0], [1], [2]], true⟩ [5]
      = listMean ((List.range ([(5:ℚ)]).length).map (fun d =>
        min (|(6745/10000) *
              ([(5:ℚ)].getD d 0 - npMedian (histColumn [[0], [1], [2]] d)) /
              (if npMedian ((histColumn [[0], [1], [2]] d).map
                  (fun x => |x - npMedian (histColumn [[0], [1], [2]] d)|)) = 0
               then 1/1000
               else npMedian ((histColumn [[0], [1], [2]] d).map
                  (fun x => |x - npMedian (histColumn [[0], [1], [2]] d)|)))| /
            (7/2)) 1)) :=
  zmad_predict_spec.1 ⟨[[0], [1], [2]], true⟩ [5] rfl

/-- C6: every registered detector's predict returns a score in [0,1]
(for the statistical detector, on valid — nonempty — feature vectors)
and returns exactly 0 whenever its trained flag is false, for every
behaviour of the opaque external libraries. -/
theorem predict_range_and_untrained :
    (∀ ext st v, (st.is_trained = false → spatialPredict ext st v = 0) ∧
      0 ≤ spatialPredict ext st v ∧ spatialPredict ext st v ≤ 1) ∧
    (∀ st v, (st.is_trained = false → temporalPredict st v = 0) ∧
      0 ≤ temporalPredict st v ∧ temporalPredict st v ≤ 1) ∧
    (∀ st v, (st.is_trained = false → statPredict st v = 0) ∧
      (v ≠ [] → 0 ≤ statPredict st v ∧ statPredict st v ≤ 1)) := by
  refine ⟨?_, ?_, ?_⟩
  · intro ext st v
    obtain ⟨flag, sc, td⟩ := st
    constructor
    · intro h
      simp only at h
      subst h
      cases td <;> rfl
    · cases td with
      | none => cases flag <;> norm_num [spatialPredict]
      | some l =>
        cases flag with
        | false => norm_num [spatialPredict]
        | true =>
          simp only [spatialPredict]
          rcases hlast : (ext.dbscanFitPredict (listTakeLast 100 l ++ [sc v])).getLast?
            with _ | c
          · norm_num
          · dsimp only
            by_cases hc : c = -1
            · rw [if_pos hc]
              norm_num
            · rw [if_neg hc]
              have hq : (0:ℚ) ≤
                  (((ext.dbscanFitPredict (listTakeLast 100 l ++ [sc v])).filter
                      (fun x => decide (x = c))).length : ℚ) /
                    (((listTakeLast 100 l ++ [sc v]).length : ℚ)) * 2 := by positivity
              constructor
              · exact le_max_left 0 _
              · exact max_le (by norm_num) (by linarith)
  · intro st v
    obtain ⟨flag, vae, cur, win⟩ := st
    constructor
    · intro h
      simp only at h
      subst h
      cases vae <;> rfl
    · cases vae with
      | none => cases flag <;> norm_num [temporalPredict]
      | some recon =>
        cases flag with
        | false => norm_num [temporalPredict]
        | true =>
          simp only [temporalPredict]
          by_cases hlen : cur.length < VAE_CONFIG_sequence_length
          · rw [if_pos hlen]
            norm_num
          · rw [if_neg hlen]
            have hmse : 0 ≤ listMean
                (((cur.zip (recon cur)).map (fun p =>
                  (p.1.zip p.2).map (fun q => (q.1 - q.2) ^ 2))).flatten) := by
              apply listMean_nonneg
              intro x hx
              rw [List.mem_flatten] at hx
              obtain ⟨l, hl, hxl⟩ := hx
              rw [List.mem_map] at hl
              obtain ⟨p, hp, rfl⟩ := hl
              rw [List.mem_map] at hxl
              obtain ⟨q, hq, rfl⟩ := hxl
              positivity
            constructor
            · exact le_min (div_nonneg hmse (by norm_num)) zero_le_one
            · exact min_le_right _ _
  · intro st v
    constructor
    · intro h
      unfold statPredict
      rw [h, if_pos rfl]
    · intro hv
      by_cases hf : st.is_trained = true
      · rw [statPredict_formula st v hf]
        constructor
        · apply listMean_nonneg
          intro x hx
          rw [List.mem_map] at hx
          obtain ⟨d, hd, rfl⟩ := hx
          exact le_min (by positivity) zero_le_one
        · apply listMean_le_one
          intro x hx
          rw [List.mem_map] at hx
          obtain ⟨d, hd, rfl⟩ := hx
          exact min_le_right _ _
      · rw [Bool.not_eq_true] at hf
        have h0 : statPredict st v = 0 := by
          unfold statPredict
          rw [hf, if_pos rfl]
        rw [h0]
        norm_num

/-- Witness for C6: untrained detectors score 0 and a trained
statistical state scores within bounds on a nonempty vector. -/
theorem predict_range_and_untrained_witness :
    spatialPredict extId spatialInit [1, 2] = 0 ∧
    temporalPredict temporalInit [1] = 0 ∧
    statPredict statInit [1] = 0 ∧
    0 ≤ statPredict ⟨[[0], [1], [2]], true⟩ [5] :=
  ⟨(predict_range_and_untrained.1 extId spatialInit [1, 2]).1 rfl,
   (predict_range_and_untrained.2.1 temporalInit [1]).1 rfl,
   (predict_range_and_untrained.2.2 statInit [1]).1 rfl,
   ((predict_range_and_untrained.2.2 ⟨[[0], [1], [2]], true⟩ [5]).2 (by decide)).1⟩

/-- C7: the statistical detector's predict is invariant under adding a
constant c simultaneously to every history vector and to the query
vector (median/MAD shift-invariance), for any trained nonempty history
whose rows match the query dimension. -/
theorem zmad_shift_invariance (hist : List (List ℚ)) (v : List ℚ) (c : ℚ)
    (hne : hist ≠ []) (hrect : ∀ row ∈ hist, row.length = v.length) :
    statPredict ⟨hist.map (fun row => row.map (fun x => x + c)), true⟩
        (v.map (fun x => x + c)) = statPredict ⟨hist, true⟩ v := by
  rw [statPredict_formula _ _ rfl, statPredict_formula _ _ rfl]
  simp only [List.length_map]
  apply congrArg listMean
  apply List.map_congr_left
  intro d hd
  have hdn : d < v.length := List.mem_range.mp hd
  have hcol : histColumn (hist.map (fun row => row.map (fun x => x + c))) d
      = (histColumn hist d).map (fun x => x + c) := by
    unfold histColumn
    rw [List.map_map, List.map_map]
    apply List.map_congr_left
    intro row hrow
    simp only [Function.comp_apply]
    exact getD_map_add row c d (by rw [hrect row hrow]; exact hdn)
  have hcne : histColumn hist d ≠ [] := by
    unfold histColumn
    simpa using hne
  have hmed : npMedian (histColumn (hist.map (fun row => row.map (fun x => x + c))) d)
      = npMedian (histColumn hist d) + c := by
    rw [hcol]
    exact npMedian_map_add _ c hcne
  have habs : (histColumn (hist.map (fun row => row.map (fun x => x + c))) d).map
      (fun x => |x - (npMedian (histColumn hist d) + c)|)
      = (histColumn hist d).map (fun x => |x - npMedian (histColumn hist d)|) := by
    rw [hcol, List.map_map]
    apply List.map_congr_left
    intro x hx
    simp only [Function.comp_apply]
    congr 1
    ring
  rw [hmed, habs]
  rw [getD_map_add v c d hdn]
  have harg : v.getD d 0 + c - (npMedian (histColumn hist d) + c)
      = v.getD d 0 - npMedian (histColumn hist d) := by ring
  rw [harg]

/-- Witness for C7: shifting a concrete 3-sample history and query by
1 leaves the score unchanged. -/
theorem zmad_shift_invariance_witness :
    statPredict ⟨[[0], [1], [2]].map (fun row => row.map (fun x => x + 1)), true⟩
        ([5].map (fun x => x + 1)) = statPredict ⟨[[0], [1], [2]], true⟩ [5] :=
  zmad_shift_invariance [[0], [1], [2]] [5] 1 (by decide) (by decide)

/-- C8 counterexample: the statistical detector's fit has no minimum
batch size — a 1-sample batch (surely a too-small batch for training)
is appended to the history, changing the detector's internal
parameters, so fit on a too-small batch is not a no-op for every
variant. -/
theorem statistical_fit_counterexample :
    (statFit statInit [[1]]).historical_data = [[1]] ∧
    statFit statInit [[1]] ≠ statInit := by
  refine ⟨by decide, by decide⟩

/-- C8 amended: fit never raises for any batch (every fit below is a
total function whose failure paths are absorbed); the spatial fit is a
silent no-op on batches of fewer than 50 vectors, the temporal fit is a
silent no-op while fewer than 50 complete sequences are buffered
(whatever the batch), and the statistical fit is a no-op only on the
empty batch (given the maintained state invariants) — a nonempty batch
of any size is appended to its history; no fit ever clears a trained
flag. -/
theorem fit_small_batch_noop :
    (∀ ext st data, data.length < 50 → spatialFit ext st data = st) ∧
    (∀ ext st data, st.time_series_window.length < 50 → temporalFit ext st data = st) ∧
    (∀ st : StatState, st.historical_data.length ≤ WINDOW_SIZES_all_data →
      (30 ≤ st.historical_data.length → st.is_trained = true) →
      statFit st [] = st) ∧
    (∀ st data, st.is_trained = true → (statFit st data).is_trained = true) := by
  refine ⟨?_, ?_, ?_, ?_⟩
  · intro ext st data h
    unfold spatialFit
    rw [if_pos h]
  · intro ext st data h
    unfold temporalFit
    rw [if_pos h]
  · intro st h1 h2
    obtain ⟨hist, flag⟩ := st
    simp only [statFit, dequeExtend, listTakeLast, List.append_nil] at *
    have hdrop : hist.length - WINDOW_SIZES_all_data = 0 := Nat.sub_eq_zero_of_le h1
    rw [hdrop, List.drop_zero]
    by_cases h30 : 30 ≤ hist.length
    · rw [if_pos h30, h2 h30]
    · rw [if_neg h30]
  · intro st data h
    obtain ⟨hist, flag⟩ := st
    simp only at h
    subst h
    simp only [statFit]
    split_ifs <;> rfl

/-- Witness for C8 amended: each no-op branch at concrete states. -/
theorem fit_small_batch_noop_witness :
    spatialFit extId spatialInit [] = spatialInit ∧
    temporalFit extId temporalInit [[1]] = temporalInit ∧
    statFit statInit [] = statInit ∧
    (statFit ⟨[[1]], true⟩ [[2]]).is_trained = true :=
  ⟨fit_small_batch_noop.1 extId spatialInit [] (by decide),
   fit_small_batch_noop.2.1 extId temporalInit [[1]] (by decide),
   fit_small_batch_noop.2.2.1 statInit (by decide) (by decide),
   fit_small_batch_noop.2.2.2 ⟨[[1]], true⟩ [[2]] rfl⟩

end MlDetector
